import Mathlib

/-!
Shallow embedding of `src/main.py` (LongLife Nutri Search API): the mock
product catalog and the three endpoint handlers `search_products`,
`get_product` and `get_categories`, with theorems checking the spec's claims.

Monetary prices are embedded in integer cents (89.99 → 8999) and ratings in
integer tenths (4.8 → 48); the Python source only stores and returns these
literals, never computes with them, so the scaling is faithful.
-/

namespace LongLifeNutri

/-- A product record, mirroring the dictionaries of `MOCK_PRODUCTS` in
`src/main.py`.  `price` is in cents and `rating` in tenths of a star. -/
structure Product where
  id : Int
  name : String
  description : String
  price : Int
  category : String
  image : String
  rating : Int
  reviews : Int
deriving DecidableEq, Repr

/-- Lowercasing of a single character as Python's `str.lower` performs it on
the ASCII range (`A`–`Z`) and the Latin-1 uppercase range (`À`–`Þ`, skipping
the multiplication sign `×`), where Unicode simple lowercase is code point
plus 32.  Every character appearing in the catalog falls in these ranges or
is already caseless/lowercase. -/
def pyLowerChar (c : Char) : Char :=
  if 65 ≤ c.toNat ∧ c.toNat ≤ 90 then Char.ofNat (c.toNat + 32)
  else if 192 ≤ c.toNat ∧ c.toNat ≤ 222 ∧ c.toNat ≠ 215 then Char.ofNat (c.toNat + 32)
  else c

/-- Python's `str.lower`, character by character. -/
def pyLower (s : String) : String :=
  ⟨s.data.map pyLowerChar⟩

/-- Decides whether the first list of characters is a prefix of the second. -/
def isPrefixL : List Char → List Char → Bool
  | [], _ => true
  | _ :: _, [] => false
  | a :: as, b :: bs => a = b && isPrefixL as bs

/-- Decides whether `needle` occurs contiguously inside `hay`: Python's
`needle in hay` on strings, on the underlying character lists. -/
def listContains (needle : List Char) : List Char → Bool
  | [] => isPrefixL needle []
  | hay@(_ :: t) => isPrefixL needle hay || listContains needle t

/-- Python's `needle in hay` substring test on strings. -/
def strContains (hay needle : String) : Bool :=
  listContains needle.data hay.data

/-- Product 1 of `MOCK_PRODUCTS`. -/
def whey : Product :=
  { id := 1
    name := "Whey Protein Premium"
    description := "Proteína de alta qualidade para ganho de massa muscular"
    price := 8999
    category := "Proteínas"
    image := "https://via.placeholder.com/300x200/4CAF50/white?text=Whey+Protein"
    rating := 48
    reviews := 245 }

/-- Product 2 of `MOCK_PRODUCTS`. -/
def bcaa : Product :=
  { id := 2
    name := "BCAA 2:1:1"
    description := "Aminoácidos essenciais para recuperação muscular"
    price := 4599
    category := "Aminoácidos"
    image := "https://via.placeholder.com/300x200/2196F3/white?text=BCAA"
    rating := 46
    reviews := 189 }

/-- Product 3 of `MOCK_PRODUCTS`. -/
def creatina : Product :=
  { id := 3
    name := "Creatina Monohidratada"
    description := "Suplemento para força e resistência muscular"
    price := 3599
    category := "Creatina"
    image := "https://via.placeholder.com/300x200/FF9800/white?text=Creatina"
    rating := 49
    reviews := 312 }

/-- Product 4 of `MOCK_PRODUCTS`. -/
def multivitaminico : Product :=
  { id := 4
    name := "Multivitamínico Premium"
    description := "Complexo vitamínico completo para saúde geral"
    price := 5599
    category := "Vitaminas"
    image := "https://via.placeholder.com/300x200/9C27B0/white?text=Vitaminas"
    rating := 47
    reviews := 156 }

/-- Product 5 of `MOCK_PRODUCTS`. -/
def omega3 : Product :=
  { id := 5
    name := "Ômega 3 Ultra"
    description := "Ácidos graxos essenciais para saúde cardiovascular"
    price := 4299
    category := "Ômegas"
    image := "https://via.placeholder.com/300x200/00BCD4/white?text=Omega+3"
    rating := 45
    reviews := 98 }

/-- Product 6 of `MOCK_PRODUCTS`. -/
def notebook : Product :=
  { id := 6
    name := "Notebook Gamer Alto Desempenho"
    description := "Notebook para jogos e trabalho pesado"
    price := 289999
    category := "Eletrônicos"
    image := "https://via.placeholder.com/300x200/607D8B/white?text=Notebook"
    rating := 44
    reviews := 67 }

/-- The mock catalog `MOCK_PRODUCTS` of `src/main.py`, in source order. -/
def MOCK_PRODUCTS : List Product :=
  [whey, bcaa, creatina, multivitaminico, omega3, notebook]

/-- The JSON object returned by the `/search` endpoint: the failure object has
`success`, `message` and `products` keys, the success object has `success`,
`query`, `total` and `products`; absent keys are `none`. -/
structure SearchResponse where
  success : Bool
  message : Option String
  query : Option String
  total : Option Nat
  products : List Product
deriving DecidableEq, Repr

/-- The JSON object returned by the `/products/{product_id}` endpoint. -/
structure ProductResponse where
  success : Bool
  message : Option String
  product : Option Product
deriving DecidableEq, Repr

/-- The JSON object returned by the `/categories` endpoint. -/
structure CategoriesResponse where
  success : Bool
  categories : List String
deriving DecidableEq, Repr

/-- The per-product condition of the `if` inside the loop of
`search_products`: the lowered query occurs in the lowered name, description
or category. -/
def matchesQuery (query_lower : String) (product : Product) : Bool :=
  strContains (pyLower product.name) query_lower ||
  strContains (pyLower product.description) query_lower ||
  strContains (pyLower product.category) query_lower

/-- The `/search` handler `search_products` of `src/main.py`.  `none` models
an absent `query` parameter; Python's `if not query` is true exactly for
`None` and the empty string. -/
def search_products (query : Option String) : SearchResponse :=
  match query with
  | none =>
    { success := false
      message := some "Query parameter is required"
      query := none
      total := none
      products := [] }
  | some q =>
    if q = "" then
      { success := false
        message := some "Query parameter is required"
        query := none
        total := none
        products := [] }
    else
      let query_lower := pyLower q
      let filtered_products := MOCK_PRODUCTS.foldl
        (fun acc product =>
          if matchesQuery query_lower product then acc ++ [product] else acc) []
      { success := true
        message := none
        query := some q
        total := some filtered_products.length
        products := filtered_products }

/-- The `/products/{product_id}` handler `get_product` of `src/main.py`. -/
def get_product (product_id : Int) : ProductResponse :=
  match MOCK_PRODUCTS.find? (fun p => p.id == product_id) with
  | none => { success := false, message := some "Product not found", product := none }
  | some p => { success := true, message := none, product := some p }

/-- The `/categories` handler `get_categories` of `src/main.py`.  The source
builds `list(set(...))`, whose iteration order is unspecified; it is embedded
as first-occurrence deduplication, and only order-independent properties are
proved about it. -/
def get_categories : CategoriesResponse :=
  { success := true
    categories := (MOCK_PRODUCTS.map (fun p => p.category)).eraseDups }

/-- The spec's notion of a case-insensitive substring match: the lowered
query occurs contiguously inside the lowered field. -/
def SubstrMatch (q field : String) : Prop :=
  ∃ s t, s ++ (pyLower q).data ++ t = (pyLower field).data

theorem isPrefixL_iff (n : List Char) : ∀ h, isPrefixL n h = true ↔ ∃ t, n ++ t = h := by
  induction n with
  | nil =>
    intro h
    simp [isPrefixL]
  | cons a as ih =>
    intro h
    cases h with
    | nil => simp [isPrefixL]
    | cons b bs =>
      simp only [isPrefixL, Bool.and_eq_true, decide_eq_true_eq, ih bs,
        List.cons_append, List.cons.injEq]
      constructor
      · rintro ⟨rfl, t, rfl⟩
        exact ⟨t, rfl, rfl⟩
      · rintro ⟨t, rfl, rfl⟩
        exact ⟨rfl, t, rfl⟩

theorem listContains_iff (n : List Char) :
    ∀ h, listContains n h = true ↔ ∃ s t, s ++ n ++ t = h := by
  intro h
  induction h with
  | nil =>
    simp [listContains, isPrefixL_iff n, List.append_eq_nil]
  | cons b bs ih =>
    simp only [listContains, Bool.or_eq_true, isPrefixL_iff n, ih]
    constructor
    · rintro (⟨t, ht⟩ | ⟨s, t, hst⟩)
      · exact ⟨[], t, by simpa using ht⟩
      · exact ⟨b :: s, t, by simp [hst]⟩
    · rintro ⟨s, t, hst⟩
      cases s with
      | nil => exact Or.inl ⟨t, by simpa using hst⟩
      | cons c s2 =>
        simp only [List.cons_append, List.cons.injEq] at hst
        exact Or.inr ⟨s2, t, hst.2⟩

theorem strContains_iff (hay needle : String) :
    strContains hay needle = true ↔ ∃ s t, s ++ needle.data ++ t = hay.data := by
  exact listContains_iff needle.data hay.data

theorem foldl_append_filter {α : Type} (f : α → Bool) :
    ∀ (l acc : List α),
      l.foldl (fun acc p => if f p then acc ++ [p] else acc) acc = acc ++ l.filter f := by
  intro l
  induction l with
  | nil =>
    intro acc
    simp
  | cons p t ih =>
    intro acc
    by_cases hp : f p = true
    · simp [List.foldl_cons, hp, ih, List.filter_cons, List.append_assoc]
    · simp [List.foldl_cons, hp, ih, List.filter_cons]

theorem search_products_eq_filter (q : String) (h : q ≠ "") :
    search_products (some q) =
      { success := true
        message := none
        query := some q
        total := some (MOCK_PRODUCTS.filter (matchesQuery (pyLower q))).length
        products := MOCK_PRODUCTS.filter (matchesQuery (pyLower q)) } := by
  simp [search_products, h, foldl_append_filter]

/-- C1: for every non-empty query string q, `search_products (some q)`
succeeds, echoes q, and its products are exactly the subsequence of
`MOCK_PRODUCTS` (in catalog order) of products whose lowered name,
description or category contains the lowered query as a substring, with
`total` the length of that subsequence. -/
theorem search_matches_exactly_filter (q : String) (h : q ≠ "") :
    (search_products (some q)).success = true ∧
    (search_products (some q)).query = some q ∧
    List.Sublist (search_products (some q)).products MOCK_PRODUCTS ∧
    (∀ p : Product, p ∈ (search_products (some q)).products ↔
      p ∈ MOCK_PRODUCTS ∧
        (SubstrMatch q p.name ∨ SubstrMatch q p.description ∨ SubstrMatch q p.category)) ∧
    (search_products (some q)).total = some (search_products (some q)).products.length := by
  rw [search_products_eq_filter q h]
  refine ⟨rfl, rfl, List.filter_sublist _, ?_, rfl⟩
  intro p
  simp [List.mem_filter, matchesQuery, Bool.or_eq_true, strContains_iff, SubstrMatch, or_assoc]

/-- Witness for C1 at the concrete query "protein". -/
theorem search_matches_exactly_filter_witness :
    (search_products (some "protein")).success = true :=
  (search_matches_exactly_filter "protein" (by decide)).1

/-- C2: every catalog product is found by `get_product` at its own id, and
`get_product 3` returns the Creatina Monohidratada product. -/
theorem get_product_returns_catalog_member :
    (∀ p ∈ MOCK_PRODUCTS,
      get_product p.id = { success := true, message := none, product := some p }) ∧
    get_product 3 = { success := true, message := none, product := some creatina } ∧
    creatina.name = "Creatina Monohidratada" := by
  decide

/-- Witness for C2 at the first catalog product. -/
theorem get_product_returns_catalog_member_witness :
    get_product whey.id = { success := true, message := none, product := some whey } :=
  get_product_returns_catalog_member.1 whey (by decide)

/-- C3: an absent (None) or empty query makes `search_products` return an
ordinary failure value with an explanatory message and no products. -/
theorem search_rejects_absent_or_empty_query :
    search_products none =
      { success := false, message := some "Query parameter is required",
        query := none, total := none, products := [] } ∧
    search_products (some "") =
      { success := false, message := some "Query parameter is required",
        query := none, total := none, products := [] } :=
  ⟨rfl, rfl⟩

/-- C4: for any id matching no catalog product, `get_product` returns an
ordinary failure value with message "Product not found"; in particular at
id 999. -/
theorem get_product_unknown_id_fails (product_id : Int)
    (h : ∀ p ∈ MOCK_PRODUCTS, p.id ≠ product_id) :
    get_product product_id =
      { success := false, message := some "Product not found", product := none } ∧
    get_product 999 =
      { success := false, message := some "Product not found", product := none } := by
  constructor
  · have hn : MOCK_PRODUCTS.find? (fun p => p.id == product_id) = none := by
      rw [List.find?_eq_none]
      intro p hp
      simpa using h p hp
    simp [get_product, hn]
  · decide

/-- Witness for C4 at id 999. -/
theorem get_product_unknown_id_fails_witness :
    get_product 999 =
      { success := false, message := some "Product not found", product := none } :=
  (get_product_unknown_id_fails 999 (by decide)).1

/-- C5: `get_categories` succeeds with a duplicate-free collection whose
members are exactly the categories occurring in the catalog; over the
reference catalog it has 6 elements.  Only order-independent properties are
stated, as the source's set iteration order is unspecified. -/
theorem categories_nodup_and_complete :
    get_categories.success = true ∧
    get_categories.categories.Nodup ∧
    (∀ c ∈ get_categories.categories, c ∈ MOCK_PRODUCTS.map (fun p => p.category)) ∧
    (∀ c ∈ MOCK_PRODUCTS.map (fun p => p.category), c ∈ get_categories.categories) ∧
    get_categories.categories.length = 6 := by
  decide

/-- Witness for C5 at the concrete category of the first product. -/
theorem categories_nodup_and_complete_witness :
    "Proteínas" ∈ get_categories.categories :=
  categories_nodup_and_complete.2.2.2.1 "Proteínas" (by decide)

/-- C6: over the reference catalog, the query "protein" returns exactly the
Whey Protein Premium product with total 1, matching only via its name, and
the query "proteína" returns the same single product with total 1, matching
via its description (not via its name). -/
theorem search_protein_scenarios :
    search_products (some "protein") =
      { success := true, message := none, query := some "protein",
        total := some 1, products := [whey] } ∧
    search_products (some "proteína") =
      { success := true, message := none, query := some "proteína",
        total := some 1, products := [whey] } ∧
    whey.name = "Whey Protein Premium" ∧
    strContains (pyLower whey.name) (pyLower "protein") = true ∧
    strContains (pyLower whey.description) (pyLower "protein") = false ∧
    strContains (pyLower whey.category) (pyLower "protein") = false ∧
    strContains (pyLower whey.description) (pyLower "proteína") = true ∧
    strContains (pyLower whey.name) (pyLower "proteína") = false := by
  decide

/-- C7: search matching is case-insensitive: two non-empty queries with the
same lowercasing produce the same products list and the same total. -/
theorem search_case_insensitive (q q' : String) (hq : q ≠ "") (hq' : q' ≠ "")
    (h : pyLower q = pyLower q') :
    (search_products (some q)).products = (search_products (some q')).products ∧
    (search_products (some q)).total = (search_products (some q')).total := by
  rw [search_products_eq_filter q hq, search_products_eq_filter q' hq', h]
  exact ⟨rfl, rfl⟩

/-- Witness for C7 at the pair "PROTEIN" / "protein". -/
theorem search_case_insensitive_witness :
    (search_products (some "PROTEIN")).products =
      (search_products (some "protein")).products :=
  (search_case_insensitive "PROTEIN" "protein" (by decide) (by decide) (by decide)).1

/-- C8: `search_products` is deterministic and idempotent over the immutable
catalog: the result of a call is a function of the query value alone, so
repeated calls with the same query (including None) return identical
results. -/
theorem search_deterministic (query : Option String) :
    search_products query = search_products query :=
  rfl

/-- C9: every catalog record satisfies the data-model invariants: positive
pairwise-distinct ids, non-empty name and category, non-negative price (in
cents), rating within [0, 50] tenths (that is, [0.0, 5.0] stars) and a
non-negative reviews count. -/
theorem catalog_invariants :
    (MOCK_PRODUCTS.map (fun p => p.id)).Nodup ∧
    (∀ p ∈ MOCK_PRODUCTS,
      0 < p.id ∧ p.name ≠ "" ∧ p.category ≠ "" ∧ 0 ≤ p.price ∧
      0 ≤ p.rating ∧ p.rating ≤ 50 ∧ 0 ≤ p.reviews) := by
  decide

/-- Witness for C9 at the first catalog product. -/
theorem catalog_invariants_witness :
    0 < whey.id ∧ whey.name ≠ "" ∧ whey.category ≠ "" ∧ 0 ≤ whey.price ∧
    0 ≤ whey.rating ∧ whey.rating ≤ 50 ∧ 0 ≤ whey.reviews :=
  catalog_invariants.2 whey (by decide)

/-- C10: the query is never trimmed, so any non-empty string (whitespace
included) takes the success branch; the single-space query matches every
product, since each lowered name contains a space, so it returns all six
products with total 6. -/
theorem whitespace_query_not_trimmed :
    (∀ q : String, q ≠ "" → (search_products (some q)).success = true) ∧
    search_products (some " ") =
      { success := true, message := none, query := some " ",
        total := some 6, products := MOCK_PRODUCTS } := by
  constructor
  · intro q hq
    rw [search_products_eq_filter q hq]
  · decide

/-- Witness for C10 at the single-space query. -/
theorem whitespace_query_not_trimmed_witness :
    (search_products (some " ")).success = true :=
  whitespace_query_not_trimmed.1 " " (by decide)

end LongLifeNutri
